import Mathlib

/-!
# Verification of the Databricks PDF backend core

Shallow embedding of `src/databricks_client.py` and the query endpoint of
`backend/main.py`.  Bytes and Python strings are modelled as lists of
natural numbers: a byte list holds values below 256, a string holds
Unicode code points.  External calls (workspace SDK, HTTP requests) are
modelled as environment records whose fields give the outcome of each
call; `Except Unit` distinguishes a raised exception from a returned
value.
-/

namespace DatabricksDemo

/-! ## Base64 codec (`base64.b64encode` / `base64.b64decode`) -/

/-- Whether an ASCII code is a character of the standard base64 alphabet. -/
def isB64 (c : Nat) : Bool :=
  (65 ≤ c && c ≤ 90) || (97 ≤ c && c ≤ 122) || (48 ≤ c && c ≤ 57) || c == 43 || c == 47

/-- Six-bit value of a base64 alphabet character. -/
def b64val (c : Nat) : Nat :=
  if 65 ≤ c && c ≤ 90 then c - 65
  else if 97 ≤ c && c ≤ 122 then c - 71
  else if 48 ≤ c && c ≤ 57 then c + 4
  else if c == 43 then 62
  else 63

/-- Character code of the base64 digit for a six-bit value. -/
def b64tab (i : Nat) : Nat :=
  if i < 26 then i + 65
  else if i < 52 then i + 71
  else if i < 62 then i - 4
  else if i == 62 then 43
  else 47

/-- Python `base64.b64encode`: each group of three bytes becomes four alphabet
characters; a trailing group of one or two bytes is padded with `=`
(character code 61). -/
def b64encode : List Nat → List Nat
  | [] => []
  | [a] => [b64tab (a / 4), b64tab (a % 4 * 16), 61, 61]
  | [a, b] => [b64tab (a / 4), b64tab (a % 4 * 16 + b / 16), b64tab (b % 16 * 4), 61]
  | a :: b :: c :: rest =>
      b64tab (a / 4) :: b64tab (a % 4 * 16 + b / 16) ::
      b64tab (b % 16 * 4 + c / 64) :: b64tab (c % 64) :: b64encode rest

/-- The decoding loop of CPython `binascii.a2b_base64` in non-strict
mode.  `quadPos` counts alphabet characters within the current quad,
`leftchar` holds their leftover bits, and `pads` counts consecutive
padding characters (not reset by discarded characters).  A padding
character (code 61) at `quadPos` at least 2 that completes a quad ends
decoding successfully with the bytes emitted so far; any other padding
character is ignored; characters outside the alphabet are discarded;
input ending with a partial quad is an error (`none`, the
`binascii.Error` for incorrect padding). -/
def a2bLoop : List Nat → Nat → Nat → Nat → Option (List Nat)
  | [], quadPos, _, _ => if quadPos == 0 then some [] else none
  | c :: rest, quadPos, leftchar, pads =>
      if c == 61 then
        if 2 ≤ quadPos then
          if 4 ≤ quadPos + (pads + 1) then some []
          else a2bLoop rest quadPos leftchar (pads + 1)
        else a2bLoop rest quadPos leftchar pads
      else if isB64 c then
        match quadPos with
        | 0 => a2bLoop rest 1 (b64val c) 0
        | 1 => (a2bLoop rest 2 (b64val c % 16) 0).map
            fun t => (leftchar * 4 + b64val c / 16) :: t
        | 2 => (a2bLoop rest 3 (b64val c % 4) 0).map
            fun t => (leftchar * 16 + b64val c / 4) :: t
        | _ => (a2bLoop rest 0 0 0).map
            fun t => (leftchar * 64 + b64val c) :: t
      else a2bLoop rest quadPos leftchar pads

/-- Python `base64.b64decode` on a byte payload: `binascii.a2b_base64`
started in the initial state.  `none` models the raised
`binascii.Error`. -/
def b64decode (s : List Nat) : Option (List Nat) :=
  a2bLoop s 0 0 0

/-- Python `base64.b64decode` applied to a `str`: the string is first
ASCII-encoded, raising (modelled by `none`) on any code point at or
above 128. -/
def b64decodeStr (s : List Nat) : Option (List Nat) :=
  if s.all (fun c => c < 128) then b64decode s else none

/-! ## Facts about the base64 table -/

theorem b64val_b64tab : ∀ i, i < 64 → b64val (b64tab i) = i := by decide

theorem isB64_b64tab : ∀ i, i < 64 → isB64 (b64tab i) = true := by decide

theorem b64tab_ne_pad : ∀ i, i < 64 → (b64tab i == 61) = false := by decide

theorem b64tab_lt_128 : ∀ i, i < 64 → b64tab i < 128 := by decide

/-! ## Round-trip lemmas -/

theorem a2bLoop_b64encode (B : List Nat) (h : ∀ x ∈ B, x < 256) :
    a2bLoop (b64encode B) 0 0 0 = some B := by
  induction B using b64encode.induct with
  | case1 => simp [b64encode, a2bLoop]
  | case2 a =>
    have ha : a < 256 := h a (by simp)
    have h1 : a / 4 < 64 := by omega
    have h2 : a % 4 * 16 < 64 := by omega
    simp [b64encode, a2bLoop, b64tab_ne_pad _ h1, b64tab_ne_pad _ h2,
      isB64_b64tab _ h1, isB64_b64tab _ h2,
      b64val_b64tab _ h1, b64val_b64tab _ h2]
    omega
  | case3 a b =>
    have ha : a < 256 := h a (by simp)
    have hb : b < 256 := h b (by simp)
    have h1 : a / 4 < 64 := by omega
    have h2 : a % 4 * 16 + b / 16 < 64 := by omega
    have h3 : b % 16 * 4 < 64 := by omega
    simp [b64encode, a2bLoop, b64tab_ne_pad _ h1, b64tab_ne_pad _ h2,
      b64tab_ne_pad _ h3, isB64_b64tab _ h1, isB64_b64tab _ h2,
      isB64_b64tab _ h3, b64val_b64tab _ h1, b64val_b64tab _ h2,
      b64val_b64tab _ h3]
    omega
  | case4 a b c rest ih =>
    have ha : a < 256 := h a (by simp)
    have hb : b < 256 := h b (by simp)
    have hc : c < 256 := h c (by simp)
    have hr : ∀ x ∈ rest, x < 256 := fun x hx => h x (by simp [hx])
    have h1 : a / 4 < 64 := by omega
    have h2 : a % 4 * 16 + b / 16 < 64 := by omega
    have h3 : b % 16 * 4 + c / 64 < 64 := by omega
    have h4 : c % 64 < 64 := by omega
    simp [b64encode, a2bLoop, b64tab_ne_pad _ h1, b64tab_ne_pad _ h2,
      b64tab_ne_pad _ h3, b64tab_ne_pad _ h4, isB64_b64tab _ h1,
      isB64_b64tab _ h2, isB64_b64tab _ h3, isB64_b64tab _ h4,
      b64val_b64tab _ h1, b64val_b64tab _ h2, b64val_b64tab _ h3,
      b64val_b64tab _ h4, ih hr]
    omega

theorem b64encode_chars (B : List Nat) (h : ∀ x ∈ B, x < 256) :
    ∀ c ∈ b64encode B, c < 128 := by
  induction B using b64encode.induct with
  | case1 => simp [b64encode]
  | case2 a =>
    have ha : a < 256 := h a (by simp)
    intro c hc
    simp only [b64encode, List.mem_cons, List.not_mem_nil, or_false] at hc
    rcases hc with rfl | rfl | rfl | rfl
    · exact b64tab_lt_128 _ (by omega)
    · exact b64tab_lt_128 _ (by omega)
    · omega
    · omega
  | case3 a b =>
    have ha : a < 256 := h a (by simp)
    have hb : b < 256 := h b (by simp)
    intro c hc
    simp only [b64encode, List.mem_cons, List.not_mem_nil, or_false] at hc
    rcases hc with rfl | rfl | rfl | rfl
    · exact b64tab_lt_128 _ (by omega)
    · exact b64tab_lt_128 _ (by omega)
    · exact b64tab_lt_128 _ (by omega)
    · omega
  | case4 a b c rest ih =>
    have ha : a < 256 := h a (by simp)
    have hb : b < 256 := h b (by simp)
    have hc : c < 256 := h c (by simp)
    have hr : ∀ x ∈ rest, x < 256 := fun x hx => h x (by simp [hx])
    intro d hd
    simp only [b64encode, List.mem_cons] at hd
    rcases hd with rfl | rfl | rfl | rfl | hd
    · exact b64tab_lt_128 _ (by omega)
    · exact b64tab_lt_128 _ (by omega)
    · exact b64tab_lt_128 _ (by omega)
    · exact b64tab_lt_128 _ (by omega)
    · exact ih hr d hd

theorem b64decode_b64encode (B : List Nat) (h : ∀ x ∈ B, x < 256) :
    b64decode (b64encode B) = some B :=
  a2bLoop_b64encode B h

theorem b64decodeStr_b64encode (B : List Nat) (h : ∀ x ∈ B, x < 256) :
    b64decodeStr (b64encode B) = some B := by
  rw [b64decodeStr, if_pos]
  · exact b64decode_b64encode B h
  · exact List.all_eq_true.mpr fun c hc => by
      simpa using b64encode_chars B h c hc

/-! ## UTF-8 encoding (`str.encode` with the `utf-8` codec) -/

/-- UTF-8 byte sequence of a single Unicode code point. -/
def utf8EncodeChar (c : Nat) : List Nat :=
  if c < 128 then [c]
  else if c < 2048 then [192 + c / 64, 128 + c % 64]
  else if c < 65536 then [224 + c / 4096, 128 + c / 64 % 64, 128 + c % 64]
  else [240 + c / 262144, 128 + c / 4096 % 64, 128 + c / 64 % 64, 128 + c % 64]

/-- Value of Python `s.encode('utf-8')` on a string of encodable code
points. -/
def utf8Encode (s : List Nat) : List Nat :=
  (s.map utf8EncodeChar).flatten

/-- Whether a code point is a surrogate (U+D800 through U+DFFF); a
Python `str` may hold lone surrogates, and `encode('utf-8')` raises
`UnicodeEncodeError` on them. -/
def isSurrogate (c : Nat) : Bool := 55296 ≤ c && c ≤ 57343

/-- Python `s.encode('utf-8')` including its failure mode: `none` models
the `UnicodeEncodeError` raised on a lone surrogate. -/
def utf8EncodeStr (s : List Nat) : Option (List Nat) :=
  if s.any isSurrogate then none else some (utf8Encode s)

/-! ## The export decode step (content normalization, lines 203-237) -/

/-- An export payload as held in `exported_content.content`: either a
`bytes` value or a `str` value. -/
inductive Payload where
  | bytes (bs : List Nat) : Payload
  | str (s : List Nat) : Payload
deriving DecidableEq

/-- Check of `content.startswith(b'JVBERi')`: the literal base64 prefix of the
PDF magic number `%PDF`, character codes of `J`, `V`, `B`, `E`, `R`, `i`. -/
def startsWithJVBERi : List Nat → Bool
  | 74 :: 86 :: 66 :: 69 :: 82 :: 105 :: _ => true
  | _ => false

/-- The content-normalization logic of `export_workspace_file`
(lines 203-237): a byte payload beginning with `JVBERi` is base64-decoded
(on a decode error the `except` branch returns it unchanged); any other
byte payload is returned unchanged; a string payload is base64-decoded,
falling back to its UTF-8 encoding when decoding raises.  The overall
`none` models the one exception that escapes this block: the UTF-8
fallback itself raising `UnicodeEncodeError` on a lone surrogate, which
propagates out of the `except` handler to the function's outer `except`
clause. -/
def decodeContent : Payload → Option (List Nat)
  | .bytes bs =>
      if startsWithJVBERi bs then
        match b64decode bs with
        | some d => some d
        | none => some bs
      else some bs
  | .str s =>
      match b64decodeStr s with
      | some d => some d
      | none => utf8EncodeStr s

/-- The transport representation built by `upload_file_to_workspace`
(line 79): `base64.b64encode(file_content).decode('utf-8')`.  The base64
characters are all ASCII, so UTF-8 decoding leaves the code points equal
to the byte values. -/
def uploadEncode (B : List Nat) : Payload :=
  .str (b64encode B)

/-! ## The export fallback protocol (`export_workspace_file`, lines 163-246) -/

/-- The export formats tried by the fallback loop (line 190). -/
inductive WFormat where
  | source
  | html
  | jupyter
deriving DecidableEq

/-- Outcome of one `workspace.export` call: it raised, returned `None`,
or returned a response object whose `content` attribute may itself be
`None`. -/
inductive ExportRes where
  | raised : ExportRes
  | noResp : ExportRes
  | resp (content : Option Payload) : ExportRes
deriving DecidableEq

/-- Python truthiness of a payload: empty `bytes` and empty `str` are
falsy. -/
def payloadTruthy : Payload → Bool
  | .bytes bs => !bs.isEmpty
  | .str s => !s.isEmpty

/-- Python truthiness of `exported_content.content`. -/
def contentTruthy : Option Payload → Bool
  | none => false
  | some p => payloadTruthy p

/-- Whether an export call produced a response with truthy content. -/
def exportHasContent (r : ExportRes) : Bool :=
  match r with
  | .resp c => contentTruthy c
  | _ => false

/-- Outcome of one raw REST `GET /api/2.0/workspace/export` call:
either the request (or `.json()`) raised, or a response with a status
code and an optional JSON `content` field (a base64 string). -/
inductive RestRes where
  | raised : RestRes
  | resp (status : Nat) (content : Option (List Nat)) : RestRes
deriving DecidableEq

/-- The two format values tried by `_download_via_rest_api` (line 305). -/
inductive RestFmt where
  | restSource
  | restAuto
deriving DecidableEq

/-- Environment of one `export_workspace_file` call: the path argument
and the outcome of every external call the function may make. -/
structure WorkspaceEnv where
  path : List Nat
  exportCall : WFormat → ExportRes
  downloadCall : Except Unit (Option (List Nat))
  restCall : RestFmt → RestRes

/-- Python `workspace_path.lower()` on a code point, ASCII range. -/
def lowerCode (c : Nat) : Nat :=
  if 65 ≤ c && c ≤ 90 then c + 32 else c

/-- Test `workspace_path.lower().endswith('.pdf')` (line 179); `.pdf` is the
code point sequence 46, 112, 100, 102. -/
def isPdfPath (p : List Nat) : Bool :=
  [46, 112, 100, 102].isSuffixOf (p.map lowerCode)

/-- One REST attempt (lines 306-326): a 200 response whose JSON carries a
`content` field is base64-decoded; every other outcome (raise, non-200
status, missing field, decode error) yields nothing and the loop
continues. -/
def restAttempt (r : RestRes) : Option (List Nat) :=
  match r with
  | .raised => none
  | .resp status content =>
      if status == 200 then
        match content with
        | some s => b64decodeStr s
        | none => none
      else none

/-- Model of `_download_via_rest_api` (lines 279-333): try format `SOURCE`, then
`AUTO`; return the first decoded content, else `None`. -/
def downloadViaRest (env : WorkspaceEnv) : Option (List Nat) :=
  match restAttempt (env.restCall .restSource) with
  | some bs => some bs
  | none => restAttempt (env.restCall .restAuto)

/-- Model of `_download_file_direct` (lines 248-277): the client `download`
capability is tried first; a raise, a `None` result or a falsy byte
string all fall through to the REST path. -/
def downloadFileDirect (env : WorkspaceEnv) : Option (List Nat) :=
  match env.downloadCall with
  | .ok (some bs) => if bs.isEmpty then downloadViaRest env else some bs
  | _ => downloadViaRest env

/-- The fallback loop over formats (lines 189-201).  `cur` is the current
value of the local `exported_content` (`none` models Python `None`): a
raising call leaves it unchanged, a call returning `None` resets it, and
a returned response is kept, breaking the loop when its content is
truthy. -/
def exportLoop (cur : Option (Option Payload)) (fmts : List WFormat)
    (call : WFormat → ExportRes) : Option (Option Payload) :=
  match fmts with
  | [] => cur
  | f :: rest =>
      match call f with
      | .raised => exportLoop cur rest call
      | .noResp => exportLoop none rest call
      | .resp c => if contentTruthy c then some c else exportLoop (some c) rest call

/-- The PDF-first `SOURCE` attempt (lines 179-186): on a raise the caught
exception leaves `exported_content` equal to `None`. -/
def pdfFirstTry (env : WorkspaceEnv) : Option (Option Payload) :=
  if isPdfPath env.path then
    match env.exportCall .source with
    | .raised => none
    | .noResp => none
    | .resp c => some c
  else none

/-- The value of `exported_content` after the PDF-first attempt and the
fallback loop (lines 176-201): the loop runs only when `exported_content`
is still `None` (line 189). -/
def exportedAfterCascade (env : WorkspaceEnv) : Option (Option Payload) :=
  match pdfFirstTry env with
  | none => exportLoop none [WFormat.source, WFormat.html, WFormat.jupyter] env.exportCall
  | some c => some c

/-- Model of `export_workspace_file` (lines 163-246): when the cascade ends with a
response carrying truthy content, that content is normalized by the
decode step; otherwise the direct-download fallback is used.  A decode
step that raises (a lone-surrogate string payload) is caught by the
outer `except` clause of line 243, which also falls back to the direct
download. -/
def export_workspace_file (env : WorkspaceEnv) : Option (List Nat) :=
  match exportedAfterCascade env with
  | some (some p) =>
      if payloadTruthy p then
        match decodeContent p with
        | some bs => some bs
        | none => downloadFileDirect env
      else downloadFileDirect env
  | _ => downloadFileDirect env

/-- The ordered log of export formats attempted by the cascade; the loop
trace stops after a response with truthy content (the `break` on
line 198). -/
def loopTrace (fmts : List WFormat) (call : WFormat → ExportRes) : List WFormat :=
  match fmts with
  | [] => []
  | f :: rest =>
      f :: (match call f with
            | .resp c => if contentTruthy c then [] else loopTrace rest call
            | _ => loopTrace rest call)

/-- The full attempt log of `export_workspace_file`: a PDF path is first
tried with the `SOURCE` format, and the fallback loop runs only when
that attempt produced no response object. -/
def exportTrace (env : WorkspaceEnv) : List WFormat :=
  if isPdfPath env.path then
    WFormat.source ::
      (match env.exportCall .source with
       | .resp _ => []
       | _ => loopTrace [WFormat.source, WFormat.html, WFormat.jupyter] env.exportCall)
  else loopTrace [WFormat.source, WFormat.html, WFormat.jupyter] env.exportCall

/-- Modelled from the spec: "iterate a fixed ordered list of export
formats {source, html, notebook-jupyter}, stopping at first non-empty
result" — the content of the first format whose result is non-empty. -/
def cascadeFirstContent (call : WFormat → ExportRes) : List WFormat → Option Payload
  | [] => none
  | f :: rest =>
      match call f with
      | .resp c => if contentTruthy c then c else cascadeFirstContent call rest
      | _ => cascadeFirstContent call rest

/-! ## SQL statement execution (`execute_sql_query`, lines 335-431) -/

/-- A schema as found in either schema location: the list of column
names (`[col.name for col in ....columns]`). -/
structure ResultSchema where
  columns : List (List Nat)
deriving DecidableEq

/-- The `statement.result.manifest` object: its `schema` attribute may be `None`,
in which case reading `.columns` from it raises and the `except` branch
falls back to generic column names. -/
structure ResultManifest where
  schema : Option ResultSchema
deriving DecidableEq

/-- The `statement.result` object: the data rows plus the two possible schema
locations.  A row value is opaque, modelled as a list of code points. -/
structure StmtResult where
  data_array : Option (List (List (List Nat)))
  schema : Option ResultSchema
  manifest : Option ResultManifest
deriving DecidableEq

/-- The `statement.status.state` value. -/
inductive StmtState where
  | succeeded
  | failed
  | canceled
  | pending
deriving DecidableEq

/-- The statement object returned by `statement_execution.execute_statement`. -/
structure Statement where
  state : StmtState
  status_error : Option (List Nat)
  result : Option StmtResult
  statement_id : Option (List Nat)
deriving DecidableEq

/-- Environment of one `execute_sql_query` call: the warehouse listing
(which may raise) and the statement obtained for a given warehouse id
(which may raise).  The SQL text and wait timeout do not influence the
modelled control flow. -/
structure SqlEnv where
  warehouses : Except Unit (List (List Nat))
  execStatement : List Nat → Except Unit Statement

/-- The generic positional column name `f"col_{i}"`: the code points of
`col_` followed by the decimal digits of `i`. -/
def genericCol (i : Nat) : List Nat :=
  [99, 111, 108, 95] ++ (Nat.toDigits 10 i).map Char.toNat

/-- Column-name recovery (lines 380-397): `result.schema` wins when
present; otherwise a present `result.manifest` is consulted, and a
manifest whose `schema` is `None` raises on `.columns`, landing in the
`except` branch that substitutes generic names for the first row's
positions. -/
def recoverColumns (r : StmtResult) : List (List Nat) :=
  match r.schema with
  | some sch => sch.columns
  | none =>
      match r.manifest with
      | some m =>
          match m.schema with
          | some sch => sch.columns
          | none =>
              match r.data_array with
              | some (row :: _) => (List.range row.length).map genericCol
              | _ => []
      | none => []

/-- One result row turned into a dict (lines 400-405): position `i` is
keyed by `columns[i] if i < len(columns) else f"col_{i}"`.  The dict is
modelled as the association list in insertion order. -/
def rowToDict (columns : List (List Nat)) (row : List (List Nat)) :
    List (List Nat × List Nat) :=
  row.enum.map fun p => (columns.getD p.1 (genericCol p.1), p.2)

/-- The error messages produced by `execute_sql_query`. -/
inductive SqlError where
  | noWarehouses
  | stateFailure (st : StmtState) (msg : Option (List Nat))
  | raisedWith
deriving DecidableEq

/-- The dict returned by `execute_sql_query`.  Outer `Option`s on
`statement_id` and `warehouse_id` model whether the key is present in
the returned dict at all. -/
structure SqlOutcome where
  success : Bool
  data : Option (List (List (List Nat × List Nat)))
  statement_id : Option (Option (List Nat))
  warehouse_id : Option (List Nat)
  error : Option SqlError
deriving DecidableEq

/-- Lines 361-424: execute the statement on a resolved warehouse and
shape the outcome by the completion state. -/
def runStatement (env : SqlEnv) (w : List Nat) : SqlOutcome :=
  match env.execStatement w with
  | .error _ =>
      { success := false, data := none, statement_id := none,
        warehouse_id := none, error := some .raisedWith }
  | .ok stmt =>
      match stmt.state with
      | .succeeded =>
          let rows :=
            match stmt.result with
            | some r =>
                match r.data_array with
                | some (row :: rest) =>
                    ((row :: rest) : List (List (List Nat))).map
                      (rowToDict (recoverColumns r))
                | _ => []
            | none => []
          { success := true, data := some rows,
            statement_id := some stmt.statement_id,
            warehouse_id := some w, error := none }
      | st =>
          { success := false, data := none,
            statement_id := some stmt.statement_id,
            warehouse_id := none,
            error := some (.stateFailure st stmt.status_error) }

/-- Model of `execute_sql_query` (lines 335-431): with no `warehouse_id`, the
warehouse listing is consulted and its first entry used; an empty
listing yields the structured `No SQL warehouses available` failure, and
a raising listing lands in the outer `except`. -/
def execute_sql_query (env : SqlEnv) (warehouse_id : Option (List Nat)) : SqlOutcome :=
  match warehouse_id with
  | some w => runStatement env w
  | none =>
      match env.warehouses with
      | .error _ =>
          { success := false, data := none, statement_id := none,
            warehouse_id := none, error := some .raisedWith }
      | .ok [] =>
          { success := false, data := none, statement_id := none,
            warehouse_id := none, error := some .noWarehouses }
      | .ok (w :: _) => runStatement env w

/-! ## Workspace listing (`list_workspace_files`, lines 136-161) -/

/-- One object of `workspace.list`: `object_type` and `language` may be
`None`. -/
structure WsObject where
  path : List Nat
  object_type : Option (List Nat)
  language : Option (List Nat)
deriving DecidableEq

/-- One entry of the returned list: `object_type` falls back to the
literal `unknown`, `language` stays optional. -/
structure FileEntry where
  path : List Nat
  object_type : List Nat
  language : Option (List Nat)
deriving DecidableEq

/-- The code points of the literal `unknown`. -/
def unknownType : List Nat := [117, 110, 107, 110, 111, 119, 110]

/-- Lines 150-155: shape one listed object into an entry dict. -/
def mkFileEntry (o : WsObject) : FileEntry :=
  { path := o.path, object_type := o.object_type.getD unknownType,
    language := o.language }

/-- Model of `list_workspace_files` (lines 136-161): enumerate the listing, or
return the empty list when the call raises. -/
def list_workspace_files (listCall : Except Unit (List WsObject)) : List FileEntry :=
  match listCall with
  | .error _ => []
  | .ok objs => objs.map mkFileEntry

/-! ## The query endpoint (`query_pdf` in `backend/main.py`, lines 265-308) -/

/-- An error message carried by a `ChatResponse`: the string form of a
caught `HTTPException` (status code and detail), the string form of any
other caught exception, or the `error` value forwarded from the AI
engine's result dict. -/
inductive ErrMsg where
  | httpExc (status : Nat) (detail : List Nat)
  | exc (msg : List Nat)
  | fromAI (msg : List Nat)
deriving DecidableEq

/-- The dict returned by `ai_engine.query_pdf_with_databricks_ai`. -/
structure AIDict where
  success : Bool
  answer : Option (List Nat)
  metadata : Option (List Nat)
  error : Option ErrMsg
deriving DecidableEq

/-- The request body of `/api/chat/query`. -/
structure ChatMessage where
  question : List Nat
  pdf_path : List Nat
  conversation_id : Option (List Nat)
deriving DecidableEq

/-- The `ChatResponse` model of `backend/main.py`. -/
structure ChatResponseM where
  success : Bool
  answer : Option (List Nat)
  conversation_id : Option (List Nat)
  metadata : Option (List Nat)
  error : Option ErrMsg
deriving DecidableEq

/-- Environment of one `query_pdf` call: whether the AI engine is
configured, the outcome of `pdf_manager.get_pdf_content` (a raise, or a
value that may be `None`), the outcome of the AI engine call, and the
fresh `uuid4` used when no conversation id is supplied. -/
structure QueryEnv where
  aiConfigured : Bool
  pdfContent : Except (List Nat) (Option (List Nat))
  aiCall : Except (List Nat) AIDict
  freshId : List Nat

/-- The detail string `AI engine not configured`. -/
def aiNotConfiguredMsg : List Nat :=
  [65, 73, 32, 101, 110, 103, 105, 110, 101, 32, 110, 111, 116, 32, 99,
   111, 110, 102, 105, 103, 117, 114, 101, 100]

/-- The detail string `PDF content not found`. -/
def pdfNotFoundMsg : List Nat :=
  [80, 68, 70, 32, 99, 111, 110, 116, 101, 110, 116, 32, 110, 111, 116,
   32, 102, 111, 117, 110, 100]

/-- The structured failure built by the `except` handler (lines 303-308):
`ChatResponse(success=False, error=str(e))`. -/
def failResponse (e : ErrMsg) : ChatResponseM :=
  { success := false, answer := none, conversation_id := none,
    metadata := none, error := some e }

/-- Evaluation of `message.conversation_id or str(uuid.uuid4())` (line 286): Python
`or` also replaces an empty string. -/
def resolveConvId (given : Option (List Nat)) (fresh : List Nat) : List Nat :=
  match given with
  | some c => if c.isEmpty then fresh else c
  | none => fresh

/-- Model of `query_pdf` (lines 265-308).  Every raise inside the handler —
including the two `HTTPException`s it raises itself — is caught by the
`except Exception` clause and converted into a structured failure; the
function always returns a `ChatResponse`. -/
def query_pdf (env : QueryEnv) (msg : ChatMessage) : ChatResponseM :=
  if env.aiConfigured = false then
    failResponse (.httpExc 400 aiNotConfiguredMsg)
  else
    match env.pdfContent with
    | .error e => failResponse (.exc e)
    | .ok c =>
        if (c.getD []).isEmpty then
          failResponse (.httpExc 404 pdfNotFoundMsg)
        else
          match env.aiCall with
          | .error e => failResponse (.exc e)
          | .ok r =>
              { success := r.success, answer := r.answer,
                conversation_id := some (resolveConvId msg.conversation_id env.freshId),
                metadata := r.metadata, error := r.error }

/-! ## Claim C1 -/

/-- C1: Round-trip — for every byte sequence `B`, applying the export
decode step (the content-normalization logic of `export_workspace_file`)
to the transport representation produced by the upload encoding (the
base64 text built in `upload_file_to_workspace`) returns exactly `B`
without raising. -/
theorem c1_upload_export_roundtrip (B : List Nat) (h : ∀ x ∈ B, x < 256) :
    decodeContent (uploadEncode B) = some B := by
  simp [uploadEncode, decodeContent, b64decodeStr_b64encode B h]

theorem c1_upload_export_roundtrip_witness :
    (∀ x ∈ [37, 80, 68, 70], x < 256) ∧
      decodeContent (uploadEncode [37, 80, 68, 70]) = some [37, 80, 68, 70] :=
  ⟨by decide, c1_upload_export_roundtrip [37, 80, 68, 70] (by decide)⟩

/-! ## Claim C2 -/

/-- C2, counterexample: the byte payload `b"JVBERi"` itself starts with the
`JVBERi` prefix, but its base64 decoding raises (six characters are an
incorrect padding), so the `except` branch returns the payload unchanged
rather than any decoded buffer — refuting the claim that every
byte-typed payload with this prefix is base64-decoded and the decoded
buffer returned. -/
theorem c2_base64_sniffing_counterexample :
    ¬ (∀ bs : List Nat, startsWithJVBERi bs = true →
        ∃ d, b64decode bs = some d ∧ decodeContent (Payload.bytes bs) = some d) := by
  intro hcl
  obtain ⟨d, hd, -⟩ := hcl [74, 86, 66, 69, 82, 105] (by decide)
  have hn : b64decode [74, 86, 66, 69, 82, 105] = none := by decide
  rw [hn] at hd
  exact Option.noConfusion hd

/-- C2, amended: for every byte-typed export payload whose first bytes are
the literal prefix `JVBERi`, the decode step base64-decodes the payload
and returns the decoded raw buffer whenever base64 decoding succeeds;
when base64 decoding fails (raises) the payload is returned unchanged;
and every other byte-typed payload is returned unchanged.  The
byte-typed branch never raises. -/
theorem c2_base64_sniffing (bs : List Nat) :
    (startsWithJVBERi bs = true →
        ∀ d, b64decode bs = some d → decodeContent (Payload.bytes bs) = some d)
    ∧ (startsWithJVBERi bs = true →
        b64decode bs = none → decodeContent (Payload.bytes bs) = some bs)
    ∧ (startsWithJVBERi bs = false → decodeContent (Payload.bytes bs) = some bs) := by
  refine ⟨fun hpre d hd => ?_, fun hpre hd => ?_, fun hpre => ?_⟩
  · simp [decodeContent, hpre, hd]
  · simp [decodeContent, hpre, hd]
  · simp [decodeContent, hpre]

theorem c2_base64_sniffing_witness :
    startsWithJVBERi [74, 86, 66, 69, 82, 105, 48, 61] = true ∧
      decodeContent (Payload.bytes [74, 86, 66, 69, 82, 105, 48, 61]) =
        some [37, 80, 68, 70, 45] :=
  ⟨by decide,
   (c2_base64_sniffing [74, 86, 66, 69, 82, 105, 48, 61]).1 (by decide)
     [37, 80, 68, 70, 45] (by decide)⟩

/-! ## Claim C5 -/

/-- C5, counterexample: the string payload holding the single lone
surrogate U+D800 is not base64-decodable (its ASCII encoding raises),
and the UTF-8 fallback `encode('utf-8')` itself raises
`UnicodeEncodeError`; that exception escapes the decode step's `except`
handler to the outer clause of `export_workspace_file`, so the decode
step returns no value — refuting the claim that decode always returns a
value and never raises outward. -/
theorem c5_decode_fallback_counterexample :
    ¬ (∀ s : List Nat, ∃ v, decodeContent (Payload.str s) = some v) := by
  intro hcl
  obtain ⟨v, hv⟩ := hcl [55296]
  have hn : decodeContent (Payload.str [55296]) = none := by decide
  rw [hn] at hv
  exact Option.noConfusion hv

/-- C5, amended: a string-typed export payload is first base64-decoded;
when base64 decoding fails, the decode step returns the UTF-8 byte
encoding of the string whenever the string is encodable (holds no lone
surrogate); when the string holds a lone surrogate the UTF-8 fallback
itself raises and the exception escapes the decode step to
`export_workspace_file`'s outer handler, which falls back to the direct
download path; a byte-typed payload whose base64 decoding fails is
returned unchanged, and the byte-typed branch never raises. -/
theorem c5_decode_fallback_chain (s bs : List Nat) :
    (∀ d, b64decodeStr s = some d → decodeContent (Payload.str s) = some d)
    ∧ (b64decodeStr s = none → decodeContent (Payload.str s) = utf8EncodeStr s)
    ∧ (b64decodeStr s = none → s.any isSurrogate = false →
        decodeContent (Payload.str s) = some (utf8Encode s))
    ∧ (b64decodeStr s = none → s.any isSurrogate = true →
        decodeContent (Payload.str s) = none)
    ∧ (b64decode bs = none → decodeContent (Payload.bytes bs) = some bs)
    ∧ (∀ env : WorkspaceEnv,
        exportedAfterCascade env = some (some (Payload.str s)) →
        b64decodeStr s = none → s.any isSurrogate = true →
        export_workspace_file env = downloadFileDirect env) := by
  refine ⟨fun d hd => by simp [decodeContent, hd],
          fun hd => by simp [decodeContent, hd],
          fun hd hsur => by simp [decodeContent, hd, utf8EncodeStr, hsur],
          fun hd hsur => by simp [decodeContent, hd, utf8EncodeStr, hsur],
          fun hd => ?_, fun env hcas hd hsur => ?_⟩
  · by_cases hpre : startsWithJVBERi bs <;> simp [decodeContent, hpre, hd]
  · unfold export_workspace_file
    rw [hcas]
    by_cases ht : payloadTruthy (Payload.str s) = true
    · simp [ht, decodeContent, hd, utf8EncodeStr, hsur]
    · simp [Bool.not_eq_true] at ht
      simp [ht]

theorem c5_decode_fallback_chain_witness :
    b64decodeStr [65, 65] = none ∧
      decodeContent (Payload.str [65, 65]) = some (utf8Encode [65, 65]) :=
  ⟨by decide,
   (c5_decode_fallback_chain [65, 65] []).2.2.1 (by decide) (by decide)⟩

/-! ## Claim C3 -/

/-- Whether the client `download` capability yielded no usable bytes:
it raised, returned `None`, or returned an empty byte string. -/
def downloadNoBytes : Except Unit (Option (List Nat)) → Bool
  | .ok (some bs) => bs.isEmpty
  | _ => true

theorem exportLoop_no_content (fmts : List WFormat) (call : WFormat → ExportRes)
    (hf : ∀ f ∈ fmts, exportHasContent (call f) = false) :
    ∀ cur, (cur = none ∨ ∃ c, cur = some c ∧ contentTruthy c = false) →
      (exportLoop cur fmts call = none ∨
        ∃ c, exportLoop cur fmts call = some c ∧ contentTruthy c = false) := by
  induction fmts with
  | nil => intro cur hcur; simpa [exportLoop] using hcur
  | cons f rest ih =>
    intro cur hcur
    have hrest : ∀ g ∈ rest, exportHasContent (call g) = false :=
      fun g hg => hf g (by simp [hg])
    cases hc : call f with
    | raised => simpa [exportLoop, hc] using ih hrest cur hcur
    | noResp => simpa [exportLoop, hc] using ih hrest none (Or.inl rfl)
    | resp c =>
      have hct : contentTruthy c = false := by
        simpa [exportHasContent, hc] using hf f (by simp)
      simpa [exportLoop, hc, hct] using ih hrest (some c) (Or.inr ⟨c, rfl, hct⟩)

/-- C3: Fallback exhaustion — when every configured export format yields
no content, the client `download` capability yields no bytes, and both
REST export attempts (`SOURCE` then `AUTO`) fail, `export_workspace_file`
returns `None`.  The model is a total function, so no exception reaches
the caller. -/
theorem c3_fallback_exhaustion (env : WorkspaceEnv)
    (hs : exportHasContent (env.exportCall .source) = false)
    (hh : exportHasContent (env.exportCall .html) = false)
    (hj : exportHasContent (env.exportCall .jupyter) = false)
    (hd : downloadNoBytes env.downloadCall = true)
    (hr1 : restAttempt (env.restCall .restSource) = none)
    (hr2 : restAttempt (env.restCall .restAuto) = none) :
    export_workspace_file env = none := by
  have hrest : downloadViaRest env = none := by
    simp [downloadViaRest, hr1, hr2]
  have hdl : downloadFileDirect env = none := by
    unfold downloadFileDirect
    cases hdc : env.downloadCall with
    | error e => simpa using hrest
    | ok o =>
      cases o with
      | none => simpa using hrest
      | some bs =>
        have : bs.isEmpty = true := by simpa [downloadNoBytes, hdc] using hd
        simpa [this] using hrest
  have hall : ∀ f ∈ [WFormat.source, WFormat.html, WFormat.jupyter],
      exportHasContent (env.exportCall f) = false := by
    intro f hfm
    simp only [List.mem_cons, List.not_mem_nil, or_false] at hfm
    rcases hfm with rfl | rfl | rfl <;> assumption
  have hcas : exportedAfterCascade env = none ∨
      ∃ c, exportedAfterCascade env = some c ∧ contentTruthy c = false := by
    unfold exportedAfterCascade pdfFirstTry
    by_cases hp : isPdfPath env.path
    · simp only [hp, if_true]
      cases hc : env.exportCall .source with
      | raised => exact exportLoop_no_content _ _ hall none (Or.inl rfl)
      | noResp => exact exportLoop_no_content _ _ hall none (Or.inl rfl)
      | resp c =>
        exact Or.inr ⟨c, rfl, by simpa [exportHasContent, hc] using hs⟩
    · simp only [hp, if_false]
      exact exportLoop_no_content _ _ hall none (Or.inl rfl)
  unfold export_workspace_file
  rcases hcas with hnone | ⟨c, hsome, hct⟩
  · rw [hnone]; exact hdl
  · rw [hsome]
    cases c with
    | none => exact hdl
    | some p =>
      have : payloadTruthy p = false := by simpa [contentTruthy] using hct
      simpa [this] using hdl

/-- Environment in which every export, download and REST call raises. -/
def allFailEnv : WorkspaceEnv :=
  { path := [47, 97, 46, 112, 100, 102],
    exportCall := fun _ => .raised,
    downloadCall := .error (),
    restCall := fun _ => .raised }

theorem c3_fallback_exhaustion_witness : export_workspace_file allFailEnv = none :=
  c3_fallback_exhaustion allFailEnv rfl rfl rfl rfl rfl rfl

/-! ## Claim C4 -/

theorem exportLoop_first_content (fmts : List WFormat) (call : WFormat → ExportRes)
    (p : Payload) (h : cascadeFirstContent call fmts = some p) :
    ∀ cur, exportLoop cur fmts call = some (some p) := by
  induction fmts with
  | nil => simp [cascadeFirstContent] at h
  | cons f rest ih =>
    intro cur
    cases hc : call f with
    | raised =>
      rw [cascadeFirstContent, hc] at h
      simpa [exportLoop, hc] using ih h cur
    | noResp =>
      rw [cascadeFirstContent, hc] at h
      simpa [exportLoop, hc] using ih h none
    | resp c =>
      simp only [cascadeFirstContent, hc] at h
      by_cases ht : contentTruthy c = true
      · rw [if_pos ht] at h
        subst h
        simp [exportLoop, hc, ht]
      · rw [if_neg ht] at h
        have ht' : contentTruthy c = false := by
          cases hcc : contentTruthy c
          · rfl
          · exact absurd hcc ht
        simpa [exportLoop, hc, ht'] using ih h (some c)

/-- Environment for a PDF path whose first `SOURCE` attempt returns a
response object with no content while the `HTML` format has content. -/
def pdfEmptyRespEnv : WorkspaceEnv :=
  { path := [47, 97, 46, 112, 100, 102],
    exportCall := fun f =>
      match f with
      | .source => .resp none
      | .html => .resp (some (.bytes [1]))
      | .jupyter => .raised,
    downloadCall := .error (),
    restCall := fun _ => .raised }

/-- C4, counterexample: for the PDF path `/a.pdf`, when the first `SOURCE`
attempt returns a response object whose content is `None` (no content)
while the `HTML` format would yield content, the code skips the format
list entirely — `if not exported_content` is false for a truthy response
object — so the cascade does not settle on the first non-empty format
result, refuting the claim as stated. -/
theorem c4_cascade_counterexample :
    ¬ (∀ env : WorkspaceEnv, isPdfPath env.path = true →
        exportHasContent (env.exportCall .source) = false →
        ∀ p, cascadeFirstContent env.exportCall
            [WFormat.source, WFormat.html, WFormat.jupyter] = some p →
          exportedAfterCascade env = some (some p)) := by
  intro hcl
  have h := hcl pdfEmptyRespEnv (by decide) (by decide)
    (Payload.bytes [1]) (by decide)
  have h2 : exportedAfterCascade pdfEmptyRespEnv = some none := by decide
  rw [h] at h2
  exact Option.noConfusion (Option.some.inj h2)

/-- C4, amended: for every path ending in a recognized PDF extension,
export first attempts the `SOURCE` format; when that attempt raises or
returns no response object, export iterates the fixed ordered list
{source, html, notebook-jupyter} and settles on the first attempt whose
result has non-empty content; but when the first attempt returns a
response object — even one with empty content — the format list is
skipped and that response is kept. -/
theorem c4_cascade_order (env : WorkspaceEnv) (hp : isPdfPath env.path = true) :
    (exportTrace env).head? = some WFormat.source
    ∧ (pdfFirstTry env = none →
        ∀ p, cascadeFirstContent env.exportCall
            [WFormat.source, WFormat.html, WFormat.jupyter] = some p →
          exportedAfterCascade env = some (some p))
    ∧ (∀ c, env.exportCall .source = .resp c →
        exportedAfterCascade env = some c) := by
  refine ⟨?_, fun h0 p hfc => ?_, fun c hc => ?_⟩
  · simp [exportTrace, hp]
  · rw [exportedAfterCascade, h0]
    exact exportLoop_first_content _ _ p hfc none
  · simp [exportedAfterCascade, pdfFirstTry, hp, hc]

/-- Environment for a PDF path whose first `SOURCE` attempt raises and
whose `HTML` format has content. -/
def pdfRaisedEnv : WorkspaceEnv :=
  { path := [47, 97, 46, 112, 100, 102],
    exportCall := fun f =>
      match f with
      | .source => .raised
      | .html => .resp (some (.bytes [1]))
      | .jupyter => .raised,
    downloadCall := .error (),
    restCall := fun _ => .raised }

theorem c4_cascade_order_witness :
    (exportTrace pdfRaisedEnv).head? = some WFormat.source ∧
      exportedAfterCascade pdfRaisedEnv = some (some (Payload.bytes [1])) :=
  ⟨(c4_cascade_order pdfRaisedEnv (by decide)).1,
   (c4_cascade_order pdfRaisedEnv (by decide)).2.1 (by decide)
     (Payload.bytes [1]) (by decide)⟩

/-! ## Claim C6 -/

/-- C6: Query boundary — for every query request, a failure at any step of
`query_pdf` yields a structured `ChatResponse` with `success=false` and
an error message: an unconfigured AI engine gives the caught 400
`HTTPException`, a raising document fetch gives the caught exception's
message, a fetch yielding `None` (or empty bytes) gives the caught 404
`PDF content not found` outcome, and a raising AI call gives that
exception's message.  `query_pdf` is a total function into
`ChatResponseM`, so no exception propagates past the boundary. -/
theorem c6_query_boundary (env : QueryEnv) (msg : ChatMessage) :
    (env.aiConfigured = false →
        query_pdf env msg = failResponse (.httpExc 400 aiNotConfiguredMsg))
    ∧ (∀ e, env.pdfContent = .error e →
        (query_pdf env msg).success = false ∧ (query_pdf env msg).error ≠ none)
    ∧ (env.aiConfigured = true → ∀ c, env.pdfContent = .ok c →
        (c.getD []).isEmpty = true →
        query_pdf env msg = failResponse (.httpExc 404 pdfNotFoundMsg))
    ∧ (∀ e, env.aiCall = .error e →
        (query_pdf env msg).success = false ∧ (query_pdf env msg).error ≠ none) := by
  refine ⟨fun hai => by simp [query_pdf, hai], fun e he => ?_, ?_, fun e he => ?_⟩
  · by_cases hai : env.aiConfigured = false <;>
      simp [query_pdf, hai, he, failResponse]
  · intro hai c hc hemp
    simp [query_pdf, hai, hc, hemp]
  · by_cases hai : env.aiConfigured = false
    · simp [query_pdf, hai, failResponse]
    · cases hpc : env.pdfContent with
      | error e2 => simp [query_pdf, hai, hpc, failResponse]
      | ok c =>
        by_cases hemp : (c.getD []).isEmpty = true <;>
          simp [query_pdf, hai, hpc, hemp, he, failResponse]

/-- Environment in which the document fetch returns `None`. -/
def noPdfEnv : QueryEnv :=
  { aiConfigured := true, pdfContent := .ok none,
    aiCall := .error [], freshId := [48] }

/-- A sample chat request. -/
def sampleMsg : ChatMessage :=
  { question := [63], pdf_path := [47, 97], conversation_id := none }

theorem c6_query_boundary_witness :
    query_pdf noPdfEnv sampleMsg = failResponse (.httpExc 404 pdfNotFoundMsg) :=
  (c6_query_boundary noPdfEnv sampleMsg).2.2.1 rfl none rfl (by decide)

/-! ## Claim C7 -/

/-- C7: Warehouse auto-selection — a call with no `warehouse_id` resolves
the first warehouse of the listing and runs the statement on it, and a
successful result carries that warehouse's id under `warehouse_id`; an
empty listing yields the structured `No SQL warehouses available`
failure rather than a raise (the model is total). -/
theorem c7_warehouse_selection (env : SqlEnv) :
    (env.warehouses = .ok [] →
        execute_sql_query env none =
          { success := false, data := none, statement_id := none,
            warehouse_id := none, error := some .noWarehouses })
    ∧ (∀ w ws, env.warehouses = .ok (w :: ws) →
        execute_sql_query env none = runStatement env w
        ∧ ((execute_sql_query env none).success = true →
            (execute_sql_query env none).warehouse_id = some w)) := by
  constructor
  · intro hw
    simp [execute_sql_query, hw]
  · intro w ws hw
    have heq : execute_sql_query env none = runStatement env w := by
      simp [execute_sql_query, hw]
    refine ⟨heq, ?_⟩
    rw [heq]
    unfold runStatement
    cases he : env.execStatement w with
    | error e => simp
    | ok stmt => cases hs : stmt.state <;> simp [hs]

/-- Environment with a single warehouse `w` (code 119) and a statement
that succeeds with no result data. -/
def oneWarehouseEnv : SqlEnv :=
  { warehouses := .ok [[119]],
    execStatement := fun _ =>
      .ok { state := .succeeded, status_error := none, result := none,
            statement_id := some [115] } }

theorem c7_warehouse_selection_witness :
    execute_sql_query oneWarehouseEnv none = runStatement oneWarehouseEnv [119] ∧
      (execute_sql_query oneWarehouseEnv none).warehouse_id = some [119] := by
  have h := (c7_warehouse_selection oneWarehouseEnv).2 [119] [] rfl
  exact ⟨h.1, h.2 (by decide)⟩

/-! ## Claim C8 -/

/-- C8: Column-name recovery — for a succeeded statement with result rows,
the returned data maps each row through `rowToDict` with the recovered
column names: `result.schema` is preferred, then the manifest's schema,
and every row position at or beyond the recovered names is keyed by the
generic positional name `col_i`. -/
theorem c8_column_recovery (env : SqlEnv) (w : List Nat) (stmt : Statement)
    (r : StmtResult) (row : List (List Nat)) (rest : List (List (List Nat)))
    (he : env.execStatement w = .ok stmt) (hs : stmt.state = .succeeded)
    (hr : stmt.result = some r) (hd : r.data_array = some (row :: rest)) :
    (runStatement env w).data =
      some (((row :: rest) : List (List (List Nat))).map
        (rowToDict (recoverColumns r)))
    ∧ (∀ sch, r.schema = some sch → recoverColumns r = sch.columns)
    ∧ (∀ m sch, r.schema = none → r.manifest = some m → m.schema = some sch →
        recoverColumns r = sch.columns)
    ∧ (∀ cols q, (rowToDict cols q).map Prod.fst =
        (List.range q.length).map fun i => cols.getD i (genericCol i)) := by
  refine ⟨?_, fun sch hsch => by simp [recoverColumns, hsch],
          fun m sch h1 h2 h3 => by simp [recoverColumns, h1, h2, h3],
          fun cols q => ?_⟩
  · rw [runStatement, he]
    simp [hs, hr, hd]
  · rw [rowToDict, List.map_map, ← List.enum_map_fst q, List.map_map]
    rfl

/-- Environment whose statement succeeds with one two-column row and no
schema in either location. -/
def sqlRowsEnv : SqlEnv :=
  { warehouses := .ok [[119]],
    execStatement := fun _ =>
      .ok { state := .succeeded, status_error := none,
            result := some { data_array := some [[[49], [50]]],
                             schema := none, manifest := none },
            statement_id := some [115] } }

theorem c8_column_recovery_witness :
    (runStatement sqlRowsEnv [119]).data =
      some [[([99, 111, 108, 95, 48], [49]), ([99, 111, 108, 95, 49], [50])]] := by
  have h := c8_column_recovery sqlRowsEnv [119]
    { state := .succeeded, status_error := none,
      result := some { data_array := some [[[49], [50]]],
                       schema := none, manifest := none },
      statement_id := some [115] }
    { data_array := some [[[49], [50]]], schema := none, manifest := none }
    [[49], [50]] [] rfl rfl rfl rfl
  rw [h.1]
  decide

/-! ## Claim C9 -/

/-- C9: Listing silent-empty policy — `list_workspace_files` returns the
shaped entries of a successful listing and the empty list when the
listing raises; it is a total function, so no exception crosses the
boundary, and a raising listing is indistinguishable from an empty
directory. -/
theorem c9_listing_policy (lc : Except Unit (List WsObject)) :
    (∀ e, lc = .error e → list_workspace_files lc = [])
    ∧ (∀ objs, lc = .ok objs → list_workspace_files lc = objs.map mkFileEntry)
    ∧ list_workspace_files (.error ()) = list_workspace_files (.ok []) := by
  refine ⟨fun e he => by simp [list_workspace_files, he],
          fun objs ho => by simp [list_workspace_files, ho], rfl⟩

theorem c9_listing_policy_witness : list_workspace_files (Except.error ()) = [] :=
  (c9_listing_policy (.error ())).1 () rfl

/-! ## Claim C10 -/

/-- C10: Empty result set is a success — a statement that completes in the
`SUCCEEDED` state with an absent result or an empty or missing
`data_array` returns `success=true` with `data` equal to the empty list,
still carrying the `statement_id` and the resolved `warehouse_id`. -/
theorem c10_empty_result_success (env : SqlEnv) (wopt : Option (List Nat))
    (w : List Nat) (stmt : Statement)
    (hw : wopt = some w ∨ (wopt = none ∧ ∃ ws, env.warehouses = .ok (w :: ws)))
    (he : env.execStatement w = .ok stmt) (hs : stmt.state = .succeeded)
    (hempty : stmt.result = none ∨ ∃ r, stmt.result = some r ∧
        (r.data_array = none ∨ r.data_array = some [])) :
    execute_sql_query env wopt =
      { success := true, data := some [], statement_id := some stmt.statement_id,
        warehouse_id := some w, error := none } := by
  have hrun : runStatement env w =
      { success := true, data := some [], statement_id := some stmt.statement_id,
        warehouse_id := some w, error := none } := by
    rw [runStatement, he]
    rcases hempty with hres | ⟨r, hres, hda⟩
    · simp [hs, hres]
    · rcases hda with hda | hda <;> simp [hs, hres, hda]
  rcases hw with rfl | ⟨rfl, ws, hws⟩
  · simpa [execute_sql_query] using hrun
  · rw [execute_sql_query, hws]
    exact hrun

/-- Environment whose statement succeeds with a result object holding an
empty `data_array`. -/
def emptyRowsEnv : SqlEnv :=
  { warehouses := .ok [[119]],
    execStatement := fun _ =>
      .ok { state := .succeeded, status_error := none,
            result := some { data_array := some [], schema := none,
                             manifest := none },
            statement_id := some [115] } }

theorem c10_empty_result_success_witness :
    execute_sql_query emptyRowsEnv none =
      { success := true, data := some [], statement_id := some (some [115]),
        warehouse_id := some [119], error := none } :=
  c10_empty_result_success emptyRowsEnv none [119]
    { state := .succeeded, status_error := none,
      result := some { data_array := some [], schema := none, manifest := none },
      statement_id := some [115] }
    (Or.inr ⟨rfl, [], rfl⟩) rfl rfl
    (Or.inr ⟨{ data_array := some [], schema := none, manifest := none },
      rfl, Or.inr rfl⟩)

end DatabricksDemo
